import Mathlib

/-!
Shallow embedding of `src/statprint.py` (the `StatPrint` report builder):
its content buffer, table normalization, theming, and the two render
backends (Word via python-docx, PDF via fpdf), modelled as pure functions
over explicit state.  Cell values carried by pandas objects are modelled
by the `Value` type and stringified with `Value.toStr` where the source
calls `str(...)`.
-/

namespace StatPrint

/-- A cell value as carried in a pandas DataFrame / Series: the source
only ever stringifies these with `str(value)`. -/
inductive Value where
  | str (s : String)
  | int (n : Int)
deriving Repr, DecidableEq

/-- Python `str(value)` on a cell value. -/
def Value.toStr : Value → String
  | .str s => s
  | .int n => toString n

/-- A pandas DataFrame reduced to what the source consumes: an ordered
list of column labels and the list of rows (`itertuples(index=False)`). -/
structure PyDataFrame where
  columns : List String
  rows : List (List Value)
deriving Repr, DecidableEq

/-- A pandas Series reduced to what the source consumes: an optional
`name` and the index/value pairs. -/
structure Series where
  name : Option String
  entries : List (String × Value)
deriving Repr, DecidableEq

/-- `Series.reset_index()`: a two-column DataFrame whose first column is
the index and second the values.  Pandas labels the index column
"index" and the value column by the series name (or 0); in the source
these labels are always overwritten right after. -/
def Series.reset_index (s : Series) : PyDataFrame :=
  { columns := ["index", s.name.getD "0"],
    rows := s.entries.map (fun e => [Value.str e.1, e.2]) }

/-- Pandas `df.columns = cols` assignment: raises `ValueError` when the
new label list does not match the column count. -/
def set_columns (df : PyDataFrame) (cols : List String) : Except String PyDataFrame :=
  if cols.length = df.columns.length then
    Except.ok { df with columns := cols }
  else
    Except.error "ValueError: Length mismatch"

/-- The cover dict built by `add_cover_page` (lines 33-38). -/
structure Cover where
  title : String
  subtitle : Option String
  author : Option String
  date : Option String
deriving Repr, DecidableEq

/-- The table theme dict: hex color strings (no leading '#') and an
optional fixed table width; `None` entries mean "no fill" / "auto". -/
structure Theme where
  header_bg_color : Option String
  row_bg_color_even : Option String
  row_bg_color_odd : Option String
  table_width : Option String
deriving Repr, DecidableEq

/-- Python truthiness of an optional string (`if theme.get(key):`):
`None` and the empty string are falsy. -/
def truthy : Option String → Bool
  | none => false
  | some s => !(s == "")

/-- The default theme installed by `__init__` when none is supplied
(lines 20-25). -/
def default_theme : Theme :=
  { header_bg_color := some "D9D9D9",
    row_bg_color_even := some "F2F2F2",
    row_bg_color_odd := none,
    table_width := none }

/-- One entry of `self.content`: the `(tag, payload)` tuples appended by
the `add_*` methods. -/
inductive ContentItem where
  | cover (c : Cover)
  | heading (text : String)
  | table (df : PyDataFrame) (custom_headers : Option (List String)) (indent_rows : List Nat)
  | graph (filename : String)
deriving Repr, DecidableEq

/-- The mutable fields of a `StatPrint` instance. -/
structure StatPrintState where
  filename : String
  doc_type : String
  title : String
  content : List ContentItem
  graph_count : Nat
  table_theme : Theme
deriving Repr, DecidableEq

/-- `StatPrint.__init__` (lines 7-27): stores the arguments, starts with
an empty buffer and counter 0, and installs the default theme when none
is given.  It has no failure path and performs no validation of the
theme's color strings. -/
def init (filename doc_type title : String) (table_theme : Option Theme) : StatPrintState :=
  { filename := filename, doc_type := doc_type, title := title,
    content := [], graph_count := 0,
    table_theme := table_theme.getD default_theme }

/-- `add_cover_page` (lines 29-40): builds the cover dict and inserts it
at position 0 of the buffer (`self.content.insert(0, ...)`). -/
def add_cover_page (s : StatPrintState) (title : String)
    (subtitle author date : Option String) : StatPrintState :=
  { s with content := ContentItem.cover ⟨title, subtitle, author, date⟩ :: s.content }

/-- `add_heading` (lines 42-44). -/
def add_heading (s : StatPrintState) (heading : String) : StatPrintState :=
  { s with content := s.content ++ [ContentItem.heading heading] }

/-- The headers derived for a Series when no custom headers are supplied
(lines 62-66). -/
def seriesHeaders (ser : Series) : List String :=
  match ser.name with
  | some n => [n, "Count"]
  | none => ["Value", "Count"]

/-- The two admissible shapes of `add_table`'s `data` argument. -/
inductive TableData where
  | series (s : Series)
  | df (d : PyDataFrame)
deriving Repr, DecidableEq

/-- `add_table` (lines 46-74).  A raised pandas exception is returned as
`some message` in the first component, with the instance state (second
component) unchanged: the only statement that can raise
(`df.columns = custom_headers`) acts on a fresh copy and precedes the
`self.content.append`.  The DataFrame branch starts from `data.copy()`,
which value semantics renders as `d` itself. -/
def add_table (s : StatPrintState) (data : TableData)
    (custom_headers : Option (List String)) (indent_rows : Option (List Nat)) :
    Option String × StatPrintState :=
  let ir := indent_rows.getD []
  match data with
  | TableData.series ser =>
    let df0 := ser.reset_index
    let headers := custom_headers.getD (seriesHeaders ser)
    match set_columns df0 headers with
    | Except.ok df =>
      (none, { s with content := s.content ++ [ContentItem.table df (some headers) ir] })
    | Except.error e => (some e, s)
  | TableData.df d =>
    match custom_headers with
    | some h =>
      match set_columns d h with
      | Except.ok df =>
        (none, { s with content := s.content ++ [ContentItem.table df (some h) ir] })
      | Except.error e => (some e, s)
    | none =>
      (none, { s with content := s.content ++ [ContentItem.table d none ir] })

/-- `add_graph` (lines 76-90): computes the save path (counter-prefixed
only when a filename hint is given), bumps the counter, and appends the
path.  The first component is the path handed to `graph.savefig`. -/
def add_graph (s : StatPrintState) (filename : Option String) : String × StatPrintState :=
  let c := s.graph_count
  let fn := match filename with
    | none => "graph_" ++ toString c ++ ".png"
    | some f => toString c ++ "_" ++ f
  (fn, { s with graph_count := c + 1, content := s.content ++ [ContentItem.graph fn] })

/-! ### Word backend (`generate_word_report`, lines 182-241, with the
styling pass `_apply_word_table_style`, lines 114-180). -/

/-- A docx table cell after the build and styling passes: its text, run
boldness, background shading (`w:shd` fill), and paragraph left
indentation. -/
structure WordCell where
  text : String
  bold : Bool
  fill : Option String
  leftIndent : Bool
deriving Repr, DecidableEq

/-- A docx table after `_apply_word_table_style`: header row, data rows,
and the optional fixed width (`w:tblW`, set only when the theme's
`table_width` is truthy). -/
structure WordTable where
  header : List WordCell
  dataRows : List (List WordCell)
  fixedWidth : Option String
deriving Repr, DecidableEq

/-- The elements `generate_word_report` appends to the docx Document. -/
inductive DocxElem where
  | paragraph (text : String)
  | heading (text : String) (level : Nat)
  | pageBreak
  | table (t : WordTable)
  | picture (path : String)
deriving Repr, DecidableEq

/-- Header-cell shading (lines 131-133): applied only when the theme's
`header_bg_color` is truthy. -/
def headerFill (theme : Theme) : Option String :=
  if truthy theme.header_bg_color then theme.header_bg_color else none

/-- Data-row shading for the row at 0-based data index `i`
(lines 136-147): even fill when `i % 2 == 0` and set, odd fill when
`i % 2 == 1` and set, else no fill. -/
def rowFill (theme : Theme) (i : Nat) : Option String :=
  if i % 2 == 0 && truthy theme.row_bg_color_even then theme.row_bg_color_even
  else if i % 2 == 1 && truthy theme.row_bg_color_odd then theme.row_bg_color_odd
  else none

/-- The docx table built for one table item: header texts from the
DataFrame columns with bold runs and header shading, one data row per
DataFrame row with alternating shading, and first-cell indentation for
rows listed in `indent_rows` (applied both at lines 230-232 and again
at lines 149-153, with the same net effect).  This captures the cell
state the style pass has applied BEFORE its final border statement:
`_apply_word_table_style` ends with `tblPr.append(tblBorders)`
(line 180), where `tblPr` is only ever bound inside the truthy
`table_width` branch (lines 156-161), so with a falsy `table_width` the
pass raises `UnboundLocalError` at line 180 after all the cell styling
below has already been applied — that abort path is modelled by
`wordItemRun` further down. -/
def renderWordTable (theme : Theme) (df : PyDataFrame) (ir : List Nat) : WordTable :=
  { header := df.columns.map (fun c =>
      { text := c, bold := true, fill := headerFill theme, leftIndent := false }),
    dataRows := df.rows.enum.map (fun p =>
      p.2.enum.map (fun q =>
        { text := q.2.toStr, bold := false,
          fill := rowFill theme p.1,
          leftIndent := q.1 == 0 && ir.contains p.1 })),
    fixedWidth := if truthy theme.table_width then theme.table_width else none }

/-- One iteration of the content loop (lines 204-238).  The `if/elif`
chain has no branch for any other tag, so a `cover` entry still in the
buffer at loop time contributes nothing. -/
def renderWordItem (theme : Theme) : ContentItem → List DocxElem
  | ContentItem.heading t => [DocxElem.heading t 1]
  | ContentItem.table df _ ir => [DocxElem.table (renderWordTable theme df ir)]
  | ContentItem.graph fn => [DocxElem.paragraph "", DocxElem.picture fn]
  | ContentItem.cover _ => []

/-- The cover-page elements emitted at lines 190-199: a spacing
paragraph, a level-0 heading with the cover title, then subtitle /
"Author: " / "Date: " paragraphs for each truthy optional field, and a
page break. -/
def coverElems (c : Cover) : List DocxElem :=
  [DocxElem.paragraph "", DocxElem.heading c.title 0]
  ++ (if truthy c.subtitle then [DocxElem.paragraph (c.subtitle.getD "")] else [])
  ++ (if truthy c.author then [DocxElem.paragraph ("Author: " ++ c.author.getD "")] else [])
  ++ (if truthy c.date then [DocxElem.paragraph ("Date: " ++ c.date.getD "")] else [])
  ++ [DocxElem.pageBreak]

/-- `generate_word_report` (lines 182-241): when the buffer starts with
a cover it is POPPED from `self.content` (line 188) and rendered,
followed by a page break; then the report title and the remaining
items.  The second component is the instance state after the call — the
pop makes it differ from the input whenever a cover was present.  The
element list is that of a run that completes; `generate_word_report_run`
below additionally models the `UnboundLocalError` abort of the table
style pass.  The state component is exact for every run, completing or
aborting: the pop is the function's only write to the instance and it
precedes the content loop. -/
def generate_word_report (s : StatPrintState) : List DocxElem × StatPrintState :=
  match s.content with
  | ContentItem.cover c :: rest =>
    (coverElems c ++ [DocxElem.heading s.title 0]
      ++ (rest.map (renderWordItem s.table_theme)).flatten,
     { s with content := rest })
  | content =>
    ([DocxElem.heading s.title 0] ++ (content.map (renderWordItem s.table_theme)).flatten, s)

/-! ### PDF backend (`generate_pdf_report`, lines 243-293). -/

/-- The drawing events `generate_pdf_report` issues to the FPDF object:
text cells (with font boldness and size), line feeds, horizontal rules,
and images. -/
inductive PdfElem where
  | cell (text : String) (bold : Bool) (size : Nat)
  | ln
  | hline
  | image (path : String)
deriving Repr, DecidableEq

/-- The text written for the data cell at row `i`, column `j`
(lines 280-283): four leading spaces when `j == 0` and `i` is listed in
`indent_rows`. -/
def pdfCellText (ir : List Nat) (i j : Nat) (v : Value) : String :=
  if j == 0 && ir.contains i then "    " ++ v.toStr else v.toStr

/-- The events for one table item (lines 260-287): bold header cells, a
line feed and rule, then per data row its cells, a line feed and a
rule.  These are the events of the non-aborting case: the preceding
`col_width = effective_width / len(df.columns)` (line 267) raises
`ZeroDivisionError` for a zero-column DataFrame before any cell is
drawn — that abort path is modelled by `pdfItemRun` further down. -/
def renderPdfTable (df : PyDataFrame) (ir : List Nat) : List PdfElem :=
  df.columns.map (fun c => PdfElem.cell c true 10)
  ++ [PdfElem.ln, PdfElem.hline]
  ++ (df.rows.enum.map (fun p =>
        p.2.enum.map (fun q => PdfElem.cell (pdfCellText ir p.1 q.1 q.2) false 10)
        ++ [PdfElem.ln, PdfElem.hline])).flatten

/-- One iteration of the PDF content loop (lines 254-290).  As in the
Word loop, only `heading`, `table` and `graph` tags have branches: a
`cover` entry is silently skipped — the PDF backend never renders cover
content. -/
def renderPdfItem : ContentItem → List PdfElem
  | ContentItem.heading t => [PdfElem.ln, PdfElem.cell t true 14]
  | ContentItem.table df _ ir => renderPdfTable df ir
  | ContentItem.graph fn => [PdfElem.ln, PdfElem.image fn]
  | ContentItem.cover _ => []

/-- `generate_pdf_report` (lines 243-293): the report title first
(centered bold size-16 cell), then the content items in order.  It only
reads `self.content`, so the returned instance state equals the input
(also in a run aborted by the zero-column `ZeroDivisionError`, which is
modelled by `generate_pdf_report_run` below). -/
def generate_pdf_report (s : StatPrintState) : List PdfElem × StatPrintState :=
  ([PdfElem.cell s.title true 16, PdfElem.ln]
    ++ (s.content.map renderPdfItem).flatten, s)

/-- The render output of `generate_report`: one backend's element list,
or nothing when `doc_type` matches neither backend. -/
inductive RenderOutput where
  | word (elems : List DocxElem)
  | pdf (elems : List PdfElem)
  | skipped
deriving Repr, DecidableEq

/-- `generate_report` (lines 92-96): dispatch on `doc_type`; any other
value is a silent no-op. -/
def generate_report (s : StatPrintState) : RenderOutput × StatPrintState :=
  if s.doc_type == "word" then
    let r := generate_word_report s
    (RenderOutput.word r.1, r.2)
  else if s.doc_type == "pdf" then
    let r := generate_pdf_report s
    (RenderOutput.pdf r.1, r.2)
  else (RenderOutput.skipped, s)

/-! ### Error-aware run model of the two render loops.

Two statements inside the loops can raise: `tblPr.append(tblBorders)`
at line 180 hits an unbound local (`tblPr` is only assigned under a
truthy `table_width`, lines 156-161) for EVERY Word table rendered with
a falsy `table_width` — including the default theme — and
`effective_width / len(df.columns)` at line 267 divides by zero for a
zero-column PDF table.  Either exception propagates out of the render
call: the loop stops at the offending item and the final `save`/
`output` line is never reached.  The run model below returns the
elements issued up to the abort point together with the abort, so the
total functions above are exactly the element sequences of runs whose
error component is `none`. -/

/-- The two exceptions a render loop can raise. -/
inductive RenderError where
  | unboundLocal
  | zeroDivision
deriving Repr, DecidableEq

/-- One Word loop iteration with its abort outcome.  A table item is
added to the document (line 212) and fully cell-styled before the style
pass reaches line 180, so in the falsy-width case the built table is in
the document when `UnboundLocalError` is raised. -/
def wordItemRun (theme : Theme) (item : ContentItem) : List DocxElem × Option RenderError :=
  match item with
  | ContentItem.table df _ ir =>
    ([DocxElem.table (renderWordTable theme df ir)],
     if truthy theme.table_width then none else some RenderError.unboundLocal)
  | other => (renderWordItem theme other, none)

/-- The Word content loop (lines 204-238) with abort: processing stops
at the first item whose iteration raises. -/
def wordRunLoop (theme : Theme) : List ContentItem → List DocxElem × Option RenderError
  | [] => ([], none)
  | item :: rest =>
    match (wordItemRun theme item).2 with
    | some e => ((wordItemRun theme item).1, some e)
    | none =>
      ((wordItemRun theme item).1 ++ (wordRunLoop theme rest).1,
       (wordRunLoop theme rest).2)

/-- `generate_word_report` with the abort path: cover pop and cover
elements, the report title, then the loop up to a possible abort.  The
cover block and title (lines 187-202) precede the loop and cannot
raise, and the pop happens first, so the state component is the same in
every run. -/
def generate_word_report_run (s : StatPrintState) :
    List DocxElem × Option RenderError × StatPrintState :=
  match s.content with
  | ContentItem.cover c :: rest =>
    (coverElems c ++ [DocxElem.heading s.title 0] ++ (wordRunLoop s.table_theme rest).1,
     (wordRunLoop s.table_theme rest).2,
     { s with content := rest })
  | content =>
    ([DocxElem.heading s.title 0] ++ (wordRunLoop s.table_theme content).1,
     (wordRunLoop s.table_theme content).2, s)

/-- One PDF loop iteration with its abort outcome: a zero-column table
raises at the width division (line 267) before emitting any event. -/
def pdfItemRun (item : ContentItem) : List PdfElem × Option RenderError :=
  match item with
  | ContentItem.table df _ ir =>
    if df.columns.length = 0 then ([], some RenderError.zeroDivision)
    else (renderPdfTable df ir, none)
  | other => (renderPdfItem other, none)

/-- The PDF content loop (lines 254-290) with abort. -/
def pdfRunLoop : List ContentItem → List PdfElem × Option RenderError
  | [] => ([], none)
  | item :: rest =>
    match (pdfItemRun item).2 with
    | some e => ((pdfItemRun item).1, some e)
    | none => ((pdfItemRun item).1 ++ (pdfRunLoop rest).1, (pdfRunLoop rest).2)

/-- `generate_pdf_report` with the abort path: the title events
(lines 249-251) precede the loop and cannot raise. -/
def generate_pdf_report_run (s : StatPrintState) :
    List PdfElem × Option RenderError × StatPrintState :=
  ([PdfElem.cell s.title true 16, PdfElem.ln] ++ (pdfRunLoop s.content).1,
   (pdfRunLoop s.content).2, s)

/-! ### Reference-level model of `add_table` for aliasing facts.

Python objects live on a heap and variables hold references; the value
model above cannot distinguish `df = data` from `df = data.copy()`, so
the copy discipline of `add_table` (lines 59-74) is re-embedded over an
explicit heap: references are indices into a list of objects,
`data.copy()` / `data.reset_index()` allocate a fresh object, and the
buffer stores the fresh reference. -/

/-- A heap object: the caller's pandas DataFrame or Series. -/
inductive PyObj where
  | df (d : PyDataFrame)
  | ser (s : Series)
deriving Repr, DecidableEq

/-- Heap and content buffer (buffer entries are references to the
stored table grids). -/
structure RefState where
  heap : List PyObj
  buffer : List Nat
deriving Repr, DecidableEq

/-- Dereference (out-of-range reads give a dummy empty frame). -/
def heapGet (h : List PyObj) (r : Nat) : PyObj :=
  h.getD r (PyObj.df ⟨[], []⟩)

/-- An in-place mutation of the object behind reference `r` (a caller
writing to its DataFrame / Series after the `add_table` call). -/
def setObj (st : RefState) (r : Nat) (v : PyObj) : RefState :=
  { st with heap := st.heap.set r v }

/-- `add_table` over the reference model.  The Series branch allocates
`data.reset_index()` (a new object) and renames the new object's
columns; the DataFrame branch allocates `data.copy()` and renames only
the copy.  In both branches the fresh reference `st.heap.length` — never
`dataRef` — is what enters the buffer, and on a raised `ValueError` the
object graph is unchanged. -/
def add_table_ref (st : RefState) (dataRef : Nat) (ch : Option (List String)) :
    Option String × RefState :=
  let newRef := st.heap.length
  match heapGet st.heap dataRef with
  | PyObj.ser ser =>
    let df0 := ser.reset_index
    let headers := ch.getD (seriesHeaders ser)
    match set_columns df0 headers with
    | Except.ok d => (none, ⟨st.heap ++ [PyObj.df d], st.buffer ++ [newRef]⟩)
    | Except.error e => (some e, st)
  | PyObj.df d =>
    match ch with
    | some h =>
      match set_columns d h with
      | Except.ok d2 => (none, ⟨st.heap ++ [PyObj.df d2], st.buffer ++ [newRef]⟩)
      | Except.error e => (some e, st)
    | none => (none, ⟨st.heap ++ [PyObj.df d], st.buffer ++ [newRef]⟩)

/-! ### Concrete fixtures used by the theorems below. -/

/-- A freshly constructed instance with all-default arguments. -/
def s0 : StatPrintState := init "report" "word" "Report" none

/-- A report whose buffer holds exactly one cover page. -/
def coverState : StatPrintState := add_cover_page s0 "T" none none none

/-- A two-column, one-row DataFrame. -/
def dfTwoCols : PyDataFrame := ⟨["A", "B"], [[Value.int 1, Value.int 2]]⟩

/-! ### Claims -/

/-- The buffer after the cover pop of `generate_word_report`
(line 188). -/
def popCover : List ContentItem → List ContentItem
  | ContentItem.cover _ :: rest => rest
  | l => l

/-- C1 (counterexample): rendering a report that holds a cover page with
the Word backend changes the buffer — `generate_word_report` pops the
cover item (line 188), so the post-render item sequence differs from
the pre-render one. -/
theorem c1_word_render_mutates_buffer :
    (generate_word_report coverState).2.content ≠ coverState.content := by
  decide

/-- C1 (amended): the PDF render never mutates the instance; the Word
render leaves the buffer unchanged exactly when no cover heads it, and
otherwise removes the leading cover item (so a second render omits the
cover). -/
theorem c1_render_buffer_effect (s : StatPrintState) :
    (generate_pdf_report s).2 = s ∧
    (generate_word_report s).2.content = popCover s.content := by
  obtain ⟨fn, dt, t, content, gc, th⟩ := s
  refine ⟨rfl, ?_⟩
  cases content with
  | nil => rfl
  | cons hd tl => cases hd <;> rfl

/-- Does this content entry carry the `cover` tag? -/
def isCoverItem : ContentItem → Bool
  | ContentItem.cover _ => true
  | _ => false

/-- C2 (counterexample): adding a cover page twice leaves TWO cover
items in the buffer, not exactly one — `add_cover_page` prepends with
`insert(0, ...)` and never removes an existing cover. -/
theorem c2_double_cover_not_overwritten :
    ((add_cover_page (add_cover_page s0 "First" none none none)
        "Second" none none none).content.countP isCoverItem) = 2 := by
  decide

/-- C2 (amended): after a second `add_cover_page` call, position 0 of
the buffer holds a Cover with the second call's arguments; the first
cover is not overwritten but pushed to position 1, where both backends'
content loops ignore it (only the position-0 cover is ever rendered, so
the latest add still wins in the output). -/
theorem c2_add_cover_page_pushes_front (s : StatPrintState) (t1 t2 : String)
    (st1 a1 d1 st2 a2 d2 : Option String) :
    (add_cover_page (add_cover_page s t1 st1 a1 d1) t2 st2 a2 d2).content =
      ContentItem.cover ⟨t2, st2, a2, d2⟩ :: ContentItem.cover ⟨t1, st1, a1, d1⟩ :: s.content ∧
    (∀ (th : Theme) (c : Cover), renderWordItem th (ContentItem.cover c) = []) ∧
    (∀ c : Cover, renderPdfItem (ContentItem.cover c) = []) :=
  ⟨rfl, fun _ _ => rfl, fun _ => rfl⟩

/-- C3 (confirmed): supplying custom headers whose length differs from a
DataFrame's column count makes `add_table` fail with the pandas
length-mismatch error (the spec's `SchemaError`), and the instance — in
particular its content buffer — is left exactly as it was: the raise
happens before the `self.content.append`. -/
theorem c3_add_table_header_mismatch (s : StatPrintState) (d : PyDataFrame)
    (h : List String) (ir : Option (List Nat))
    (hlen : h.length ≠ d.columns.length) :
    add_table s (TableData.df d) (some h) ir =
      (some "ValueError: Length mismatch", s) := by
  simp [add_table, set_columns, hlen]

/-- C3 witness: two-column frame, one custom header. -/
theorem c3_add_table_header_mismatch_witness :
    ((["x"] : List String).length ≠ dfTwoCols.columns.length) ∧
    add_table s0 (TableData.df dfTwoCols) (some ["x"]) none =
      (some "ValueError: Length mismatch", s0) :=
  ⟨by decide, c3_add_table_header_mismatch s0 dfTwoCols ["x"] none (by decide)⟩

/-- A PDF-typed report holding only a cover page. -/
def pdfCoverState : StatPrintState :=
  add_cover_page (init "report" "pdf" "Report" none) "CoverTitle" none none none

/-- C4 (counterexample): with the PDF backend a cover page is NOT
rendered first — it is not rendered at all.  On a buffer holding only a
cover titled "CoverTitle", `generate_pdf_report` emits just the report
title cell and its line feed; no event carries the cover's text. -/
theorem c4_pdf_ignores_cover :
    (generate_pdf_report pdfCoverState).1 = [PdfElem.cell "Report" true 16, PdfElem.ln] ∧
    (generate_pdf_report pdfCoverState).1.filter
      (fun e => match e with
        | PdfElem.cell t _ _ => t == "CoverTitle"
        | _ => false) = [] := by
  decide

/-- Every Word loop iteration issues the same elements as the total
per-item renderer: the abort of a falsy-width table happens after its
table was added to the document. -/
theorem wordItemRun_fst (theme : Theme) (item : ContentItem) :
    (wordItemRun theme item).1 = renderWordItem theme item := by
  cases item <;> rfl

/-- A Word loop run that raises no error issues exactly the total
model's element sequence. -/
theorem wordRunLoop_complete (theme : Theme) (items : List ContentItem)
    (h : (wordRunLoop theme items).2 = none) :
    (wordRunLoop theme items).1 = (items.map (renderWordItem theme)).flatten := by
  induction items with
  | nil => rfl
  | cons item rest ih =>
    rcases herr : (wordItemRun theme item).2 with _ | e
    · simp only [wordRunLoop, herr] at h ⊢
      rw [List.map_cons, List.flatten_cons, wordItemRun_fst, ih h]
    · simp [wordRunLoop, herr] at h

/-- A PDF loop iteration that raises no error issues the total per-item
renderer's events. -/
theorem pdfItemRun_fst_of_ok (item : ContentItem)
    (h : (pdfItemRun item).2 = none) :
    (pdfItemRun item).1 = renderPdfItem item := by
  cases item with
  | table df ch ir =>
    by_cases hz : df.columns.length = 0
    · simp [pdfItemRun, hz] at h
    · simp [pdfItemRun, renderPdfItem, hz]
  | cover c => rfl
  | heading t2 => rfl
  | graph g => rfl

/-- A PDF loop run that raises no error issues exactly the total
model's event sequence. -/
theorem pdfRunLoop_complete (items : List ContentItem)
    (h : (pdfRunLoop items).2 = none) :
    (pdfRunLoop items).1 = (items.map renderPdfItem).flatten := by
  induction items with
  | nil => rfl
  | cons item rest ih =>
    rcases herr : (pdfItemRun item).2 with _ | e
    · simp only [pdfRunLoop, herr] at h ⊢
      rw [List.map_cons, List.flatten_cons, pdfItemRun_fst_of_ok item herr, ih h]
    · simp [pdfRunLoop, herr] at h

/-- C4 (amended): only the Word backend honors the cover contract, and
only up to its abort path.  In EVERY Word run — completing or aborted —
the document opens with the cover elements, the forced page break comes
immediately after them, and the report title follows; the remaining
items then follow in full exactly when the run raises no error (a table
rendered under a falsy `table_width`, the default theme included,
aborts the run with `UnboundLocalError` at line 180 before completion).
The PDF backend emits the report title first and drops cover items
entirely in every run (its content loop has no branch for them; its own
abort is the zero-column division at line 267). -/
theorem c4_cover_rendering_by_backend (fn dt t : String) (th : Theme) (gc : Nat)
    (c : Cover) (rest : List ContentItem) :
    (generate_word_report_run ⟨fn, dt, t, ContentItem.cover c :: rest, gc, th⟩).1 =
      [DocxElem.paragraph "", DocxElem.heading c.title 0]
      ++ (if truthy c.subtitle then [DocxElem.paragraph (c.subtitle.getD "")] else [])
      ++ (if truthy c.author then [DocxElem.paragraph ("Author: " ++ c.author.getD "")] else [])
      ++ (if truthy c.date then [DocxElem.paragraph ("Date: " ++ c.date.getD "")] else [])
      ++ [DocxElem.pageBreak]
      ++ [DocxElem.heading t 0]
      ++ (wordRunLoop th rest).1 ∧
    ((generate_word_report_run ⟨fn, dt, t, ContentItem.cover c :: rest, gc, th⟩).2.1 = none →
      (wordRunLoop th rest).1 = (rest.map (renderWordItem th)).flatten) ∧
    (generate_pdf_report_run ⟨fn, dt, t, ContentItem.cover c :: rest, gc, th⟩).1 =
      [PdfElem.cell t true 16, PdfElem.ln] ++ (pdfRunLoop (ContentItem.cover c :: rest)).1 ∧
    (pdfRunLoop (ContentItem.cover c :: rest)).1 = (pdfRunLoop rest).1 ∧
    ((generate_pdf_report_run ⟨fn, dt, t, ContentItem.cover c :: rest, gc, th⟩).2.1 = none →
      (pdfRunLoop rest).1 = (rest.map renderPdfItem).flatten) := by
  refine ⟨by simp [generate_word_report_run, coverElems], ?_, rfl, rfl, ?_⟩
  · intro h
    exact wordRunLoop_complete th rest h
  · intro h
    exact pdfRunLoop_complete rest h

/-- C4 witness: a cover followed by one heading under the default theme
completes in both backends, with the remaining item rendered in full. -/
theorem c4_cover_rendering_by_backend_witness :
    ((generate_word_report_run ⟨"report", "word", "Report",
        [ContentItem.cover ⟨"CT", none, none, none⟩, ContentItem.heading "H"], 0,
        default_theme⟩).2.1 = none) ∧
    (wordRunLoop default_theme [ContentItem.heading "H"]).1 =
      ([ContentItem.heading "H"].map (renderWordItem default_theme)).flatten ∧
    ((generate_pdf_report_run ⟨"report", "word", "Report",
        [ContentItem.cover ⟨"CT", none, none, none⟩, ContentItem.heading "H"], 0,
        default_theme⟩).2.1 = none) ∧
    (pdfRunLoop [ContentItem.heading "H"]).1 =
      ([ContentItem.heading "H"].map renderPdfItem).flatten :=
  ⟨by decide,
   (c4_cover_rendering_by_backend "report" "word" "Report" default_theme 0
      ⟨"CT", none, none, none⟩ [ContentItem.heading "H"]).2.1 (by decide),
   by decide,
   (c4_cover_rendering_by_backend "report" "word" "Report" default_theme 0
      ⟨"CT", none, none, none⟩ [ContentItem.heading "H"]).2.2.2.2 (by decide)⟩

/-- C5 (confirmed): a Series added without custom headers is stored with
derived headers — `[name, "Count"]` when the series is named, else
`["Value", "Count"]` — its index as first column and its values as
second; the example series `{"A": 1, "B": 2}` named "Category" yields
headers `["Category", "Count"]` and, once stringified the way both
renderers stringify cells, rows `[["A", "1"], ["B", "2"]]`. -/
theorem c5_series_normalization (s : StatPrintState) (ser : Series) :
    add_table s (TableData.series ser) none none =
      (none, { s with content := s.content ++
        [ContentItem.table
          { columns := match ser.name with
                       | some n => [n, "Count"]
                       | none => ["Value", "Count"],
            rows := ser.entries.map (fun e => [Value.str e.1, e.2]) }
          (some (match ser.name with
                 | some n => [n, "Count"]
                 | none => ["Value", "Count"]))
          []] }) ∧
    (add_table s0
        (TableData.series ⟨some "Category", [("A", Value.int 1), ("B", Value.int 2)]⟩)
        none none).2.content =
      [ContentItem.table
        ⟨["Category", "Count"], [[Value.str "A", Value.int 1], [Value.str "B", Value.int 2]]⟩
        (some ["Category", "Count"]) []] ∧
    ([[Value.str "A", Value.int 1], [Value.str "B", Value.int 2]]).map
        (fun r => r.map Value.toStr) = [["A", "1"], ["B", "2"]] := by
  refine ⟨?_, by decide, by decide⟩
  cases hn : ser.name <;>
    simp [add_table, seriesHeaders, Series.reset_index, set_columns, hn]

/-- The image path the claim's formula prescribes:
`"{graphCounter}_{filenameHint or 'graph_{counter}.png'}"` read
compositionally, i.e. the counter prefix is applied in every case. -/
def specGraphPath (c : Nat) (hint : Option String) : String :=
  toString c ++ "_" ++ hint.getD ("graph_" ++ toString c ++ ".png")

/-- C7 (counterexample): on a fresh report (counter 0) with no filename
hint, `add_graph` saves to "graph_0.png", while the claim's path formula
gives "0_graph_0.png" — the counter prefix is NOT applied to the
default name. -/
theorem c7_graph_path_formula_fails :
    (add_graph s0 none).1 = "graph_0.png" ∧
    specGraphPath s0.graph_count none = "0_graph_0.png" ∧
    (add_graph s0 none).1 ≠ specGraphPath s0.graph_count none := by
  decide

/-- C7 (amended): `add_graph` writes the raster to
`"{graphCounter}_{filenameHint}"` when a hint is supplied and to
`"graph_{graphCounter}.png"` (no counter prefix) when not, increments
the counter by exactly one per call, and appends the resulting path as
the new image item. -/
theorem c7_add_graph_behavior (s : StatPrintState) (hint : Option String) :
    (add_graph s hint).1 = (match hint with
      | none => "graph_" ++ toString s.graph_count ++ ".png"
      | some f => toString s.graph_count ++ "_" ++ f) ∧
    (add_graph s hint).2.graph_count = s.graph_count + 1 ∧
    (add_graph s hint).2.content =
      s.content ++ [ContentItem.graph (add_graph s hint).1] := by
  cases hint <;> exact ⟨rfl, rfl, rfl⟩

/-- Is this a well-formed hex color string (what the claim means by a
color value that is not malformed)? -/
def isHexColor (s : String) : Bool :=
  !(s == "") && s.data.all (fun ch =>
    (('0' ≤ ch && ch ≤ '9') || ('a' ≤ ch && ch ≤ 'f') || ('A' ≤ ch && ch ≤ 'F')))

/-- A theme whose header color is not a hex string. -/
def badTheme : Theme :=
  { header_bg_color := some "not-a-hex", row_bg_color_even := none,
    row_bg_color_odd := none, table_width := none }

/-- C9 (counterexample): constructing a report with a malformed
(non-hex) theme color does NOT fail — `__init__` performs no validation
and returns a normal instance storing the theme verbatim, and the
malformed value flows unchecked into the render-time header shading. -/
theorem c9_theme_validation_absent :
    isHexColor "not-a-hex" = false ∧
    init "report" "word" "Report" (some badTheme) =
      { filename := "report", doc_type := "word", title := "Report",
        content := [], graph_count := 0, table_theme := badTheme } ∧
    headerFill badTheme = some "not-a-hex" := by
  decide

/-- C9 (amended): report construction accepts any supplied theme without
inspecting its color values — it always succeeds and stores the theme
verbatim, so no `StyleError` is surfaced at construction time (nor
anywhere else: the colors are passed through to cell shading as-is). -/
theorem c9_init_stores_theme_verbatim (fn dt t : String) (th : Theme) :
    init fn dt t (some th) =
      { filename := fn, doc_type := dt, title := t,
        content := [], graph_count := 0, table_theme := th } :=
  rfl

/-- C6 (confirmed): in a rendered Word table, the cell background of
the data row at 0-based data position `i` (counted independently of the
header row) is the even-row color when `i % 2 == 0` and that option is
set, the odd-row color when `i % 2 == 1` and that option is set, and no
fill otherwise; every header cell's background is governed solely by
the theme's header color. -/
theorem c6_table_zebra_striping (th : Theme) (df : PyDataFrame) (ir : List Nat) :
    (∀ (i : Nat) (cell : WordCell),
        cell ∈ (renderWordTable th df ir).dataRows.getD i [] →
        cell.fill = (if i % 2 = 0 then
                       (if truthy th.row_bg_color_even then th.row_bg_color_even else none)
                     else
                       (if truthy th.row_bg_color_odd then th.row_bg_color_odd else none))) ∧
    (∀ cell : WordCell, cell ∈ (renderWordTable th df ir).header →
        cell.fill = (if truthy th.header_bg_color then th.header_bg_color else none)) := by
  constructor
  · intro i cell hmem
    simp only [renderWordTable] at hmem
    rw [List.getD_eq_getElem?_getD, List.getElem?_map, List.getElem?_enum] at hmem
    rcases hr : df.rows[i]? with _ | row
    · rw [hr] at hmem
      simp at hmem
    · rw [hr] at hmem
      simp only [Option.map_some', Option.getD_some] at hmem
      rcases List.mem_map.mp hmem with ⟨q, hq, rfl⟩
      show rowFill th i = _
      rcases Nat.mod_two_eq_zero_or_one i with h2 | h2 <;> simp [rowFill, h2]
  · intro cell hmem
    simp only [renderWordTable] at hmem
    rcases List.mem_map.mp hmem with ⟨c, hc, rfl⟩
    show headerFill th = _
    simp [headerFill]

/-- The fixtures for the zebra-striping witness: default theme (even
rows "F2F2F2", odd rows unfilled), a one-column two-row table, and the
rendered cell of data row 0. -/
def dfW : PyDataFrame := ⟨["H"], [[Value.str "a"], [Value.str "b"]]⟩

/-- The rendered data cell of row 0 under the default theme. -/
def cellW : WordCell := ⟨"a", false, some "F2F2F2", false⟩

/-- C6 witness: data row 0 under the default theme receives the even
fill "F2F2F2". -/
theorem c6_table_zebra_striping_witness :
    cellW ∈ (renderWordTable default_theme dfW []).dataRows.getD 0 [] ∧
    cellW.fill = (if 0 % 2 = 0 then
                    (if truthy default_theme.row_bg_color_even then
                      default_theme.row_bg_color_even
                     else none)
                  else
                    (if truthy default_theme.row_bg_color_odd then
                      default_theme.row_bg_color_odd
                     else none)) :=
  ⟨by decide, (c6_table_zebra_striping default_theme dfW []).1 0 cellW (by decide)⟩

/-- Indent lookups only ever happen at data-row indices below the row
count, so dropping larger listed values cannot change the lookup. -/
theorem contains_filter_lt (ir : List Nat) (n i : Nat) (hi : i < n) :
    (ir.filter (fun j => decide (j < n))).contains i = ir.contains i := by
  by_cases h : i ∈ ir <;> simp [List.elem_eq_mem, List.mem_filter, h, hi]

/-- C8 (confirmed): `indent_rows` values are 0-based data-row
positions.  For every listed row the Word backend sets the first cell's
left indent and the PDF backend prefixes the first cell's text with the
indent marker; values outside `[0, rowCount)` change neither backend's
output (rendering with the raw list equals rendering with the list
restricted to in-range values), and they never cause a failure —
`add_table`'s error outcome is independent of the indent list. -/
theorem c8_indent_rows_semantics (th : Theme) (df : PyDataFrame) (ir : List Nat) :
    (∀ (i : Nat) (cell : WordCell), i ∈ ir →
        ((renderWordTable th df ir).dataRows.getD i []).head? = some cell →
        cell.leftIndent = true) ∧
    (∀ (i : Nat) (v : Value), i ∈ ir → pdfCellText ir i 0 v = "    " ++ v.toStr) ∧
    renderWordTable th df ir =
      renderWordTable th df (ir.filter (fun j => decide (j < df.rows.length))) ∧
    renderPdfTable df ir =
      renderPdfTable df (ir.filter (fun j => decide (j < df.rows.length))) ∧
    (∀ (s : StatPrintState) (data : TableData) (ch : Option (List String)),
        (add_table s data ch (some ir)).1 = (add_table s data ch none).1) := by
  refine ⟨?_, ?_, ?_, ?_, ?_⟩
  · intro i cell hi hhead
    simp only [renderWordTable] at hhead
    rw [List.getD_eq_getElem?_getD, List.getElem?_map, List.getElem?_enum] at hhead
    rcases hr : df.rows[i]? with _ | row
    · rw [hr] at hhead
      simp at hhead
    · rw [hr] at hhead
      simp only [Option.map_some', Option.getD_some] at hhead
      cases row with
      | nil => simp at hhead
      | cons v vs =>
        simp only [List.enum, List.enumFrom, List.map_cons, List.head?_cons,
          Option.some.injEq] at hhead
        rw [← hhead]
        simp [List.elem_eq_mem, hi]
  · intro i v hi
    simp [pdfCellText, List.elem_eq_mem, hi]
  · simp only [renderWordTable, WordTable.mk.injEq, true_and, and_true]
    apply List.map_congr_left
    intro p hp
    have hlt : p.1 < df.rows.length :=
      (List.getElem?_eq_some.mp (List.mem_enum_iff_getElem?.mp hp)).1
    apply List.map_congr_left
    intro q hq
    rw [contains_filter_lt ir df.rows.length p.1 hlt]
  · simp only [renderPdfTable]
    congr 1
    congr 1
    apply List.map_congr_left
    intro p hp
    have hlt : p.1 < df.rows.length :=
      (List.getElem?_eq_some.mp (List.mem_enum_iff_getElem?.mp hp)).1
    congr 1
    apply List.map_congr_left
    intro q hq
    simp only [pdfCellText]
    rw [contains_filter_lt ir df.rows.length p.1 hlt]
  · intro s data ch
    cases data with
    | series ser =>
      rcases hsc : set_columns ser.reset_index (ch.getD (seriesHeaders ser)) with e | d <;>
        simp [add_table, hsc]
    | df d =>
      cases ch with
      | none => rfl
      | some h =>
        rcases hsc : set_columns d h with e | d2 <;> simp [add_table, hsc]

/-- The rendered first cell of data row 0 of `dfW` when rows 0 and 5 are
listed for indentation (5 is out of range on the 2-row table). -/
def cellI : WordCell := ⟨"a", false, some "F2F2F2", true⟩

/-- C8 witness: with `indent_rows = [0, 5]` on the 2-row table, the
first cell of data row 0 is indented (and, per the theorem, the listed
out-of-range value 5 leaves the output unchanged and raises no
error). -/
theorem c8_indent_rows_semantics_witness :
    (0 ∈ ([0, 5] : List Nat)) ∧
    ((renderWordTable default_theme dfW [0, 5]).dataRows.getD 0 []).head? = some cellI ∧
    cellI.leftIndent = true :=
  ⟨by decide, by decide,
   (c8_indent_rows_semantics default_theme dfW [0, 5]).1 0 cellI (by decide) (by decide)⟩

/-- Every successful `add_table_ref` call allocates: the new state is
the old heap extended with one fresh DataFrame object, and the buffer
gains exactly the fresh reference. -/
theorem add_table_ref_success_shape (st : RefState) (r : Nat) (ch : Option (List String))
    (st' : RefState) (hok : add_table_ref st r ch = (none, st')) :
    ∃ d : PyDataFrame,
      st' = ⟨st.heap ++ [PyObj.df d], st.buffer ++ [st.heap.length]⟩ := by
  rcases hobj : heapGet st.heap r with d | ser
  · cases ch with
    | none =>
      simp only [add_table_ref, hobj, Prod.mk.injEq, true_and] at hok
      exact ⟨d, hok.symm⟩
    | some h =>
      rcases hsc : set_columns d h with e | d2
      · simp only [add_table_ref, hobj, hsc] at hok
        exact absurd (congrArg Prod.fst hok) (by simp)
      · simp only [add_table_ref, hobj, hsc, Prod.mk.injEq, true_and] at hok
        exact ⟨d2, hok.symm⟩
  · rcases hsc : set_columns ser.reset_index (ch.getD (seriesHeaders ser)) with e | d2
    · simp only [add_table_ref, hobj, hsc] at hok
      exact absurd (congrArg Prod.fst hok) (by simp)
    · simp only [add_table_ref, hobj, hsc, Prod.mk.injEq, true_and] at hok
      exact ⟨d2, hok.symm⟩

/-- C10 (confirmed, over the reference model of `add_table`): a
successful `add_table` never mutates its `data` argument.  The caller's
object is unchanged by the call (in particular custom headers do not
rename the caller's columns, since the rename acts on the copy), the
buffer receives a fresh reference distinct from the caller's, and any
later in-place write through the caller's reference leaves the stored
grid untouched. -/
theorem c10_add_table_copies_input (st : RefState) (dataRef : Nat)
    (ch : Option (List String)) (st' : RefState) (v : PyObj)
    (href : dataRef < st.heap.length)
    (hok : add_table_ref st dataRef ch = (none, st')) :
    heapGet st'.heap dataRef = heapGet st.heap dataRef ∧
    st'.buffer = st.buffer ++ [st.heap.length] ∧
    st.heap.length ≠ dataRef ∧
    heapGet (setObj st' dataRef v).heap st.heap.length =
      heapGet st'.heap st.heap.length := by
  obtain ⟨d, rfl⟩ := add_table_ref_success_shape st dataRef ch st' hok
  refine ⟨?_, rfl, Nat.ne_of_gt href, ?_⟩
  · unfold heapGet
    exact List.getD_append _ _ _ _ href
  · unfold heapGet setObj
    rw [List.getD_eq_getElem?_getD, List.getD_eq_getElem?_getD,
      List.getElem?_set_ne (Nat.ne_of_lt href)]

/-- The caller's heap before the C10 witness call: one DataFrame at
reference 0, empty buffer. -/
def refSt : RefState := ⟨[PyObj.df ⟨["A"], [[Value.int 1]]⟩], []⟩

/-- The state after `add_table_ref refSt 0 none`: a copy at reference 1,
buffered. -/
def refStAfter : RefState :=
  ⟨[PyObj.df ⟨["A"], [[Value.int 1]]⟩, PyObj.df ⟨["A"], [[Value.int 1]]⟩], [1]⟩

/-- C10 witness: adding the DataFrame at reference 0 stores a copy at
the fresh reference 1; mutating reference 0 afterwards leaves it
untouched. -/
theorem c10_add_table_copies_input_witness :
    (0 < refSt.heap.length) ∧
    (add_table_ref refSt 0 none = (none, refStAfter)) ∧
    (heapGet refStAfter.heap 0 = heapGet refSt.heap 0 ∧
     refStAfter.buffer = refSt.buffer ++ [refSt.heap.length] ∧
     refSt.heap.length ≠ 0 ∧
     heapGet (setObj refStAfter 0 (PyObj.df ⟨[], []⟩)).heap refSt.heap.length =
       heapGet refStAfter.heap refSt.heap.length) :=
  ⟨by decide, by decide,
   c10_add_table_copies_input refSt 0 none refStAfter (PyObj.df ⟨[], []⟩)
     (by decide) (by decide)⟩

end StatPrint
